import Mathlib

/-!
Verification of the vnpy_xt datafeed adapter against its specification.

The repository wraps the proprietary XtQuant SDK (`xtquant.xtdata`,
`xtquant.xtdatacenter`) for the VeighNa trading framework.  The material
available here is the README configuration instructions, the demo notebook
`script/xtdata_demo.ipynb` (which shows the token-mode bootstrap sequence and
the forwarded vendor functions), and the spec.  The adapter class itself is
not among the source files, so its behaviour is modelled from the spec's
words where noted.
-/

namespace VnpyXt

/-- VeighNa global datafeed configuration, as documented in the README:
`datafeed.name`, `datafeed.username`, `datafeed.password`. -/
structure DatafeedSettings where
  name : String
  username : String
  password : String
deriving DecidableEq, Repr

/-- The two connection modes documented in the README: client mode (via the
locally running 迅投 terminal) and token mode (authenticating with a
credential string). -/
inductive ConnectMode where
  | client : ConnectMode
  | token (credential : String) : ConnectMode
deriving DecidableEq, Repr

/-- Modelled from the spec: the adapter's connection bootstrapping (the
datafeed `init` method, absent from the sources) reads the configuration and
selects the mode.  Per the README: if `datafeed.username` is `"client"` the
adapter connects through the client regardless of the password; otherwise it
connects by token, using `datafeed.password` as the credential. -/
def selectMode (s : DatafeedSettings) : ConnectMode :=
  if s.username = "client" then ConnectMode.client
  else ConnectMode.token s.password

/-- Calls into the vendor module `xtquant.xtdatacenter`, as performed by the
token-mode bootstrap cell of `script/xtdata_demo.ipynb`. -/
inductive XtdcCall where
  | set_token (token : String) : XtdcCall
  | set_data_home_dir (dir : String) : XtdcCall
  | init : XtdcCall
deriving DecidableEq, Repr

/-- The data home directory passed to the vendor in token mode, from the
notebook: `str(TEMP_DIR) + "\\xt"`. -/
def dataHomeDir (tempDir : String) : String :=
  tempDir ++ "\\xt"

/-- The token-mode bootstrap sequence from `script/xtdata_demo.ipynb`:
`xtdc.set_token(token)`, then `xtdc.set_data_home_dir(str(TEMP_DIR)+"\\xt")`,
then `xtdc.init()`. -/
def tokenBootstrap (token : String) (tempDir : String) : List XtdcCall :=
  [XtdcCall.set_token token,
   XtdcCall.set_data_home_dir (dataHomeDir tempDir),
   XtdcCall.init]

/-- The data-retrieval operations the adapter exposes, i.e. the vendor
functions imported from `xtquant.xtdata` in `script/xtdata_demo.ipynb`. -/
inductive DataRequest where
  | get_full_tick (codes : List String) : DataRequest
  | get_instrument_detail (code : String) (iscomplete : Bool) : DataRequest
  | get_local_data (fields codes : List String)
      (period startTime endTime : String) : DataRequest
  | download_history_data (code period startTime endTime : String) : DataRequest
  | get_stock_list_in_sector (sector : String) : DataRequest
  | download_financial_data (codes : List String) : DataRequest
  | get_financial_data (codes : List String) : DataRequest
  | get_market_data_ex (fields codes : List String) (period : String) : DataRequest
deriving DecidableEq, Repr

/-- Adapter-local state after connection bootstrapping: the connected flag
and the selected mode.  Modelled from the spec: the adapter keeps no other
state of its own. -/
structure AdapterState where
  inited : Bool
  mode : ConnectMode
deriving DecidableEq, Repr

/-- Modelled from the spec: handling one forwarded data call (the adapter
forwarding code is absent from the sources).  The adapter invokes the vendor
function exactly once, on the very arguments it received, and returns the
vendor's value — an ordinary result or an error — unchanged, leaving its own
state untouched.  The second component records the trace of vendor
invocations made while serving the request. -/
def handleRequest {β : Type} (st : AdapterState)
    (vendor : DataRequest → Except String β) (req : DataRequest) :
    AdapterState × List DataRequest × Except String β :=
  (st, [req], vendor req)

/-- Session environment outside the adapter: whether the local 迅投 terminal
process is currently running. -/
structure Env where
  clientRunning : Bool
deriving DecidableEq, Repr

/-- Modelled from the spec: whether data/order relay is available in a given
mode and environment.  Client connection requires the locally running
terminal (README: 需要保持迅投客户端的运行); token connection authenticates
with the credential string alone and never needs the client process
(README: 通过Token连接无需保持迅投客户端的运行). -/
def relayAvailable (mode : ConnectMode) (env : Env) : Bool :=
  match mode with
  | ConnectMode.client => env.clientRunning
  | ConnectMode.token _ => true

/-- Exchanges the README lists as covered for stocks, funds, bonds and ETF
options. -/
def equityExchanges : List String := ["SSE", "SZSE"]

/-- Exchanges the README lists as covered for futures and futures options. -/
def futuresExchanges : List String :=
  ["CFFEX", "SHFE", "DCE", "CZCE", "INE", "GFEX"]

/-- All exchanges whose K-line and tick data the service covers, per the
README's 说明 section. -/
def supportedExchanges : List String := equityExchanges ++ futuresExchanges

/-- Whether an exchange's K-line and tick data is covered by the service. -/
def isSupportedExchange (e : String) : Bool := supportedExchanges.contains e

/-- C1: for every data-retrieval operation the adapter exposes, the value
returned to the caller equals, unchanged, the value the vendor function
returns on the same arguments; the vendor is invoked exactly once with
exactly the received request, so nothing is transformed, filtered or
cached. -/
theorem forwarded_call_returns_vendor_value {β : Type}
    (st : AdapterState) (vendor : DataRequest → Except String β)
    (req : DataRequest) :
    (handleRequest st vendor req).2.2 = vendor req ∧
    (handleRequest st vendor req).2.1 = [req] :=
  ⟨rfl, rfl⟩

/-- C2: connection bootstrapping selects its mode from the single
`datafeed.username` value: `"client"` yields client mode, anything else
yields token mode with `datafeed.password` as the credential. -/
theorem select_mode_by_username (s : DatafeedSettings) :
    (s.username = "client" → selectMode s = ConnectMode.client) ∧
    (s.username ≠ "client" → selectMode s = ConnectMode.token s.password) := by
  constructor
  · intro h
    simp [selectMode, h]
  · intro h
    simp [selectMode, h]

/-- Witness for C2 at concrete configurations. -/
theorem select_mode_by_username_witness :
    selectMode ⟨"xt", "client", "secret"⟩ = ConnectMode.client ∧
    selectMode ⟨"xt", "token", "tok123"⟩ = ConnectMode.token "tok123" :=
  ⟨(select_mode_by_username ⟨"xt", "client", "secret"⟩).1 rfl,
   (select_mode_by_username ⟨"xt", "token", "tok123"⟩).2 (by decide)⟩

/-- C3: the token-mode bootstrap calls the vendor module in a fixed order —
set the token, then set the data home directory, then `init()` — and no
`init()` call precedes the token being set. -/
theorem token_bootstrap_call_order (token tempDir : String) :
    ∃ i j k : ℕ, i < j ∧ j < k ∧
      (tokenBootstrap token tempDir).get? i = some (XtdcCall.set_token token) ∧
      (tokenBootstrap token tempDir).get? j =
        some (XtdcCall.set_data_home_dir (dataHomeDir tempDir)) ∧
      (tokenBootstrap token tempDir).get? k = some XtdcCall.init ∧
      ∀ m, (tokenBootstrap token tempDir).get? m = some XtdcCall.init → i < m := by
  refine ⟨0, 1, 2, Nat.zero_lt_one, Nat.one_lt_two, rfl, rfl, rfl, ?_⟩
  intro m hm
  match m with
  | 0 => simp [tokenBootstrap] at hm
  | 1 => simp [tokenBootstrap] at hm
  | 2 => exact Nat.zero_lt_two
  | (n + 3) => simp [tokenBootstrap] at hm

/-- Witness for C3 at a concrete token and temp directory. -/
theorem token_bootstrap_call_order_witness :
    ∃ i j k : ℕ, i < j ∧ j < k ∧
      (tokenBootstrap "xxx" "C:\\temp").get? i = some (XtdcCall.set_token "xxx") ∧
      (tokenBootstrap "xxx" "C:\\temp").get? j =
        some (XtdcCall.set_data_home_dir (dataHomeDir "C:\\temp")) ∧
      (tokenBootstrap "xxx" "C:\\temp").get? k = some XtdcCall.init ∧
      ∀ m, (tokenBootstrap "xxx" "C:\\temp").get? m = some XtdcCall.init → i < m :=
  token_bootstrap_call_order "xxx" "C:\\temp"

/-- C4: when the vendor function signals an error, the adapter returns
exactly that error — no retry (the vendor is invoked once), no
transformation, no recovery — and the adapter state is unchanged by the
failed call. -/
theorem vendor_error_propagated_unchanged {β : Type}
    (st : AdapterState) (vendor : DataRequest → Except String β)
    (req : DataRequest) (e : String) (h : vendor req = Except.error e) :
    (handleRequest st vendor req).2.2 = Except.error e ∧
    (handleRequest st vendor req).2.1 = [req] ∧
    (handleRequest st vendor req).1 = st :=
  ⟨h, rfl, rfl⟩

/-- Witness for C4: a vendor that times out on a full-tick query. -/
theorem vendor_error_propagated_unchanged_witness :
    (handleRequest ⟨true, ConnectMode.client⟩
        (fun (_ : DataRequest) => (Except.error "timeout" : Except String Unit))
        (DataRequest.get_full_tick ["SZO"])).2.2 = Except.error "timeout" ∧
    (handleRequest ⟨true, ConnectMode.client⟩
        (fun (_ : DataRequest) => (Except.error "timeout" : Except String Unit))
        (DataRequest.get_full_tick ["SZO"])).2.1 =
      [DataRequest.get_full_tick ["SZO"]] ∧
    (handleRequest ⟨true, ConnectMode.client⟩
        (fun (_ : DataRequest) => (Except.error "timeout" : Except String Unit))
        (DataRequest.get_full_tick ["SZO"])).1 = ⟨true, ConnectMode.client⟩ :=
  vendor_error_propagated_unchanged ⟨true, ConnectMode.client⟩
    (fun _ => Except.error "timeout") (DataRequest.get_full_tick ["SZO"])
    "timeout" rfl

/-- C5: in client mode, data/order relay succeeds only while the local
terminal process is running. -/
theorem client_mode_requires_running_client (env : Env)
    (h : relayAvailable ConnectMode.client env = true) :
    env.clientRunning = true := h

/-- Witness for C5: with the client running, relay is available. -/
theorem client_mode_requires_running_client_witness :
    relayAvailable ConnectMode.client ⟨true⟩ = true ∧
    Env.clientRunning ⟨true⟩ = true :=
  ⟨rfl, client_mode_requires_running_client ⟨true⟩ rfl⟩

/-- C6: in token mode no operation depends on the local terminal process:
relay availability is the same whatever the client-process state, and is in
fact always granted. -/
theorem token_mode_ignores_client_process (credential : String) (env env' : Env) :
    relayAvailable (ConnectMode.token credential) env =
      relayAvailable (ConnectMode.token credential) env' ∧
    relayAvailable (ConnectMode.token credential) env = true :=
  ⟨rfl, rfl⟩

/-- C7: after bootstrapping, every forwarded data call leaves the
adapter-local state exactly as it was. -/
theorem forwarded_call_preserves_adapter_state {β : Type}
    (st : AdapterState) (vendor : DataRequest → Except String β)
    (req : DataRequest) :
    (handleRequest st vendor req).1 = st :=
  rfl

/-- C8: with `datafeed.username = "client"`, the selected connection mode is
client mode and is independent of the `datafeed.password` value: any two
configurations differing only in the password select the same mode. -/
theorem client_mode_independent_of_password (n p p' : String) :
    selectMode ⟨n, "client", p⟩ = ConnectMode.client ∧
    selectMode ⟨n, "client", p'⟩ = selectMode ⟨n, "client", p⟩ := by
  constructor <;> simp [selectMode]

/-- C9: the token-mode bootstrap sets the vendor data home directory to the
subdirectory `xt` of the host framework's TEMP_DIR, and does so before
calling `init()`. -/
theorem token_bootstrap_sets_data_home_dir (token tempDir : String) :
    dataHomeDir tempDir = tempDir ++ "\\xt" ∧
    ∃ j k : ℕ, j < k ∧
      (tokenBootstrap token tempDir).get? j =
        some (XtdcCall.set_data_home_dir (tempDir ++ "\\xt")) ∧
      (tokenBootstrap token tempDir).get? k = some XtdcCall.init :=
  ⟨rfl, 1, 2, Nat.one_lt_two, rfl, rfl⟩

/-- C10: the service covers K-line and tick data for exactly eight Chinese
exchanges — SSE and SZSE for stocks, funds, bonds and ETF options, and
CFFEX, SHFE, DCE, CZCE, INE and GFEX for futures and futures options — and
for no other exchange. -/
theorem supported_exchanges_exactly_eight :
    equityExchanges = ["SSE", "SZSE"] ∧
    futuresExchanges = ["CFFEX", "SHFE", "DCE", "CZCE", "INE", "GFEX"] ∧
    supportedExchanges =
      ["SSE", "SZSE", "CFFEX", "SHFE", "DCE", "CZCE", "INE", "GFEX"] ∧
    supportedExchanges.Nodup ∧
    supportedExchanges.length = 8 ∧
    (∀ e : String, isSupportedExchange e = true ↔ e ∈ supportedExchanges) ∧
    isSupportedExchange "HKEX" = false := by
  refine ⟨rfl, rfl, rfl, by decide, rfl, ?_, by decide⟩
  intro e
  simp [isSupportedExchange, List.contains]

end VnpyXt
